import Mathlib

/-
Verification of the approval/action state machine, deduplication pipeline,
correction learning and reminder scheduler of the twilio-sms-webhook service.
The Lean definitions below are shallow embeddings of the JavaScript sources:
  - services/pendingActions.js        (in-memory TTL registry)
  - services/supabase.js              (conversation / message row operations)
  - routes/approval.js                (Telegram callback + web form decision routes)
  - services/smsProcessor.js          (inbound pipeline: dedup, draft, notify)
  - services/claude.js                (first-contact template generator)
  - utils/validation.js               (phone sanitizing, client-name extraction)
  - services/corrections.js           (correction records)
  - services/reminderScheduler.js     (reminder claim/retry state machine)
External collaborators (Supabase queries, Twilio, Telegram, the menu API and
the model API) are modelled as explicit inputs: each network call's outcome is
a parameter, and each outbound call the code makes is recorded as an effect.
-/

namespace SmsSkill

/-- Delivery status of an `sms_messages` row. The code stores statuses as strings;
the values written anywhere in the sources are exactly these five. -/
inductive Status
  | received
  | pending_approval
  | approved
  | sent
  | rejected
  deriving DecidableEq, Repr

/-- JS truthiness for a nullable string: `null`/`undefined` and `""` are falsy. -/
def truthy : Option String → Bool
  | Option.none => false
  | Option.some s => s ≠ ""

/-- JS `a || b` where `a` is a nullable string and `b` a string: the fallback chain
used all over the sources. -/
def jsOr (a : Option String) (b : String) : String :=
  if truthy a then a.getD "" else b

/-- JS `\s` on the ASCII range: space, tab, newline, carriage return, vertical
tab, form feed. -/
def jsWhitespace (c : Char) : Bool :=
  c = ' ' || c = '\t' || c = '\n' || c = '\r' || c = '\x0b' || c = '\x0c'

/-- JS `String.prototype.trim`: strip whitespace from both ends. -/
def jsTrim (s : String) : String :=
  String.mk (((s.data.dropWhile jsWhitespace).reverse.dropWhile jsWhitespace).reverse)

/-- The joined `sms_conversations` record as the approval routes read it. -/
structure Conversation where
  phone_number : String
  client_name : Option String
  deriving DecidableEq, Repr

/-- One `sms_messages` row (fields touched by the code under verification), with the
`sms_conversations` join that `getMessage` selects. Row ids are modelled as strings,
like the uuid keys in the database. -/
structure MsgRow where
  id : String
  conversation_id : String
  direction : String
  body : String
  draft_body : Option String
  twilio_sid : Option String
  status : Status
  approved_at : Option Nat
  sent_at : Option Nat
  sms_conversations : Option Conversation
  deriving DecidableEq, Repr

/-! ## services/pendingActions.js -/

/-- An entry of the in-memory pending-action Map: the action registered by
`setPendingAction` plus the timestamp it records. The opaque payload forwarded to
`applyMenuChange` is elided: the registry never inspects it, and the apply call's
outcome enters the model as an explicit input. -/
structure PendingAction where
  type : String
  summary : String
  timestamp : Nat
  deriving DecidableEq, Repr

/-- `ACTION_TTL_MS = 6 * 60 * 60 * 1000` (6 hours, in milliseconds). -/
def ACTION_TTL_MS : Nat := 6 * 60 * 60 * 1000

/-- The module-level `pendingActions` Map, keyed by message id. -/
abbrev PendingStore := List (String × PendingAction)

/-- `Map.get` semantics on the association list. -/
def mapGet : PendingStore → String → Option PendingAction
  | [], _ => Option.none
  | e :: t, k => if e.1 = k then Option.some e.2 else mapGet t k

/-- `Map.set` semantics: replace the binding when the key is present, else append. -/
def mapSet : PendingStore → String → PendingAction → PendingStore
  | [], k, v => [(k, v)]
  | e :: t, k, v => if e.1 = k then (k, v) :: t else e :: mapSet t k v

/-- `Map.delete` semantics. -/
def mapDelete : PendingStore → String → PendingStore
  | [], _ => []
  | e :: t, k => if e.1 = k then mapDelete t k else e :: mapDelete t k

/-- `setPendingAction(messageId, action)`: no-op when the message id is falsy,
otherwise stores the action together with `Date.now()`. -/
def setPendingAction (store : PendingStore) (now : Nat) (messageId : String)
    (type summary : String) : PendingStore :=
  if messageId = "" then store
  else mapSet store messageId { type := type, summary := summary, timestamp := now }

/-- `getPendingAction(messageId)`: absent entries yield `null`; an entry older than
the TTL is deleted on this read and also yields `null`. Returns the read value and
the store as it stands after the read. `Date.now() - entry.timestamp` is truncated
subtraction, which agrees with the JS comparison whenever `now ≥ timestamp`, and a
clock that ran backwards never expires an entry in either semantics. -/
def getPendingAction (store : PendingStore) (now : Nat) (messageId : String) :
    Option PendingAction × PendingStore :=
  match mapGet store messageId with
  | Option.none => (Option.none, store)
  | Option.some entry =>
    if ACTION_TTL_MS < now - entry.timestamp then (Option.none, mapDelete store messageId)
    else (Option.some entry, store)

/-- `clearPendingAction(messageId)`. -/
def clearPendingAction (store : PendingStore) (messageId : String) : PendingStore :=
  mapDelete store messageId

/-! ## services/supabase.js row updates (single row, keyed by the route's message id) -/

/-- `approveMessage(messageId, finalBody)`: re-reads the row's `draft_body`, writes
`body = finalBody || draft_body || ''`, `status = 'approved'` and the approval
timestamp. -/
def approveMessage (m : MsgRow) (finalBody : Option String) (now : Nat) : MsgRow :=
  { m with
    body := jsOr finalBody (jsOr m.draft_body "")
    status := Status.approved
    approved_at := Option.some now }

/-- `markMessageSent(messageId, twilioSid)`. -/
def markMessageSent (m : MsgRow) (twilioSid : String) (now : Nat) : MsgRow :=
  { m with
    twilio_sid := Option.some twilioSid
    status := Status.sent
    sent_at := Option.some now }

/-- `rejectMessage(messageId)`. -/
def rejectMessage (m : MsgRow) : MsgRow :=
  { m with status := Status.rejected }

/-! ## services/corrections.js -/

/-- The row `storeCorrection` inserts into `draft_corrections` (the fields the
approval routes populate; the asynchronous rule-extraction step fills the rest
later and is out of the decision paths modelled here). -/
structure CorrectionInsert where
  channel : String
  action : String
  incomingContext : Option String
  incomingFrom : Option String
  originalDraft : Option String
  correctedText : Option String
  deriving DecidableEq, Repr

/-- `storeCorrection({...})`: the inserted row; `corrected_text` is
`correctedText || null`, so an absent or empty corrected text is stored as null. -/
def storeCorrection (channel action : String)
    (incomingContext incomingFrom originalDraft correctedText : Option String) :
    CorrectionInsert :=
  { channel := channel
    action := action
    incomingContext := incomingContext
    incomingFrom := incomingFrom
    originalDraft := originalDraft
    correctedText := if truthy correctedText then correctedText else Option.none }

/-! ## routes/approval.js -/

/-- Outcome of the external `applyMenuChange` call: `ok`, `data?.status`,
`data?.summary`, `data?.error` and the top-level `error` field. -/
structure ApplyResult where
  ok : Bool
  dataStatus : Option String
  dataSummary : Option String
  dataError : Option String
  error : Option String
  deriving DecidableEq, Repr

/-- Outcome of the external `sendSMS` call. -/
structure SmsResult where
  success : Bool
  sid : String
  error : String
  deriving DecidableEq, Repr

/-- The `status` field of `executePendingAction`'s result object:
`'none' | 'applied' | 'failed'`. -/
inductive ExecStatus
  | nothingToApply
  | applied (summary : String)
  | failed (error : String)
  deriving DecidableEq, Repr

/-- `executePendingAction(messageId)`: look the action up (lazily expiring it); for
the three menu action types call `applyMenuChange`, and only when that call is ok
with `data.status === 'applied'` clear the entry and report `applied`; any other
apply outcome reports `failed` and leaves the entry registered. A non-menu action
is cleared and reported as `none`. -/
def executePendingAction (store : PendingStore) (now : Nat) (messageId : String)
    (applyResult : ApplyResult) : ExecStatus × PendingStore :=
  match getPendingAction store now messageId with
  | (Option.none, store1) => (ExecStatus.nothingToApply, store1)
  | (Option.some pending, store1) =>
    if pending.type = "update_menu" ∨ pending.type = "add_menu" ∨
        pending.type = "remove_menu" then
      if applyResult.ok = false ∨ applyResult.dataStatus ≠ Option.some "applied" then
        (ExecStatus.failed
          (jsOr applyResult.error (jsOr applyResult.dataError "Menu update failed")),
         store1)
      else
        (ExecStatus.applied (jsOr applyResult.dataSummary pending.summary),
         clearPendingAction store1 messageId)
    else
      (ExecStatus.nothingToApply, clearPendingAction store1 messageId)

/-- Observable outward calls of the decision routes: the Twilio send, reviewer
notifications (`sendMessage`/`updateMessage` to the Telegram chat), the outbound
mirror sync to the MTL system, and `draft_corrections` inserts. -/
inductive Effect
  | smsSend (toNumber body : String)
  | telegramNotify (text : String)
  | mtlSync (status body : String)
  | correction (rec : CorrectionInsert)
  deriving DecidableEq, Repr

/-- State the decision routes act on: the `sms_messages` row for the decided
message id (`getMessage`'s result, `none` when the row is missing) and the
pending-action registry. Every database read and write of these routes is keyed
by that one id, so the row itself is the reachable state. -/
structure ApprovalState where
  message : Option MsgRow
  pending : PendingStore
  deriving DecidableEq, Repr

/-- `sendApprovedSms(messageId, body, telegramMessageId, isEdit)`: fetch the row and
its conversation, approve it (an edit overrides the draft), execute any pending
action — aborting before the Twilio call when the apply fails — then send, and on
send success mark the row sent; reviewer notifications report each outcome. -/
def sendApprovedSms (st : ApprovalState) (messageId : String) (body : Option String)
    (telegramMessageId : Option Nat) (isEdit : Bool) (now : Nat)
    (applyResult : ApplyResult) (smsResult : SmsResult) : ApprovalState × List Effect :=
  match st.message with
  | Option.none => (st, [])
  | Option.some dbMessage =>
    match dbMessage.sms_conversations with
    | Option.none => (st, [])
    | Option.some conversation =>
      let approved := approveMessage dbMessage (if isEdit then body else Option.none) now
      let finalBody := if isEdit then body.getD "" else approved.body
      let ex := executePendingAction st.pending now messageId applyResult
      match ex.1 with
      | ExecStatus.failed err =>
        ({ message := Option.some approved, pending := ex.2 },
         [Effect.telegramNotify ("Failed to apply action: " ++ err)])
      | _ =>
        if smsResult.success then
          ({ message := Option.some (markMessageSent approved smsResult.sid now)
             pending := ex.2 },
           [Effect.smsSend conversation.phone_number finalBody,
            Effect.mtlSync "sent" finalBody,
            Effect.telegramNotify
              ((if isEdit then "Sent edited message to " else "Sent to ")
                ++ conversation.phone_number ++ ":\n\"" ++ finalBody ++ "\"")])
        else
          ({ message := Option.some approved, pending := ex.2 },
           [Effect.smsSend conversation.phone_number finalBody,
            Effect.mtlSync "failed" finalBody,
            Effect.telegramNotify ("Failed to send: " ++ smsResult.error)])

/-- `handleApprove(messageId, telegramMessage)` — the Telegram approve callback:
it calls `sendApprovedSms` directly, with no check of the row's current status. -/
def handleApprove (st : ApprovalState) (messageId : String) (telegramMessageId : Nat)
    (now : Nat) (applyResult : ApplyResult) (smsResult : SmsResult) :
    ApprovalState × List Effect :=
  sendApprovedSms st messageId Option.none (Option.some telegramMessageId) false now
    applyResult smsResult

/-- `handleReject(messageId, telegramMessage)` — the Telegram reject callback:
reject the row, clear the pending action, store a reject correction when the row
exists, and edit the Telegram message. `incomingContext` is the value of the
`getLastInboundContext` read. Again there is no check of the current status. -/
def handleReject (st : ApprovalState) (messageId : String)
    (incomingContext : Option String) : ApprovalState × List Effect :=
  let rejected := st.message.map rejectMessage
  let ps1 := clearPendingAction st.pending messageId
  let corrEffs :=
    match st.message with
    | Option.some dbMessage =>
      [Effect.correction (storeCorrection "sms" "reject" incomingContext
        (dbMessage.sms_conversations.map (fun c => c.phone_number))
        dbMessage.draft_body Option.none)]
    | Option.none => []
  ({ message := rejected, pending := ps1 },
   corrEffs ++ [Effect.telegramNotify "Message rejected (not sent)"])

/-- `handleCallbackQuery`'s dispatch on the callback data's `action:messageId`
pair: approve and reject are handled, anything else is logged and ignored. -/
def handleCallbackQuery (st : ApprovalState) (action messageId : String)
    (telegramMessageId : Nat) (incomingContext : Option String) (now : Nat)
    (applyResult : ApplyResult) (smsResult : SmsResult) : ApprovalState × List Effect :=
  if action = "approve" then
    handleApprove st messageId telegramMessageId now applyResult smsResult
  else if action = "reject" then
    handleReject st messageId incomingContext
  else (st, [])

/-- The page the web approval route renders back. -/
inductive WebPage
  | notFound
  | alreadyProcessed (status : Status)
  | sentPage
  | sentEditedPage
  | emptyMessage
  | rejectedPage
  | invalidAction
  deriving DecidableEq, Repr

/-- `router.post('/:messageId')` — the web-form decision route. Unlike the Telegram
callback, it first rejects decisions on rows whose status is already `sent`,
`rejected` or `approved` ("already processed": no state change, no effect), then
dispatches approve / edit / reject. -/
def webApprovalPost (st : ApprovalState) (messageId : String) (action : String)
    (editedBody : Option String) (incomingContext : Option String) (now : Nat)
    (applyResult : ApplyResult) (smsResult : SmsResult) :
    ApprovalState × List Effect × WebPage :=
  match st.message with
  | Option.none => (st, [], WebPage.notFound)
  | Option.some dbMessage =>
    if dbMessage.status = Status.sent ∨ dbMessage.status = Status.rejected ∨
        dbMessage.status = Status.approved then
      (st, [], WebPage.alreadyProcessed dbMessage.status)
    else if action = "approve" then
      let r := sendApprovedSms st messageId Option.none Option.none false now
        applyResult smsResult
      (r.1, r.2, WebPage.sentPage)
    else if action = "edit" then
      let finalBody := jsTrim (editedBody.getD "")
      if finalBody = "" then (st, [], WebPage.emptyMessage)
      else
        let corr := Effect.correction (storeCorrection "sms" "edit" incomingContext
          (dbMessage.sms_conversations.map (fun c => c.phone_number))
          dbMessage.draft_body (Option.some finalBody))
        let r := sendApprovedSms st messageId (Option.some finalBody) Option.none true
          now applyResult smsResult
        (r.1, corr :: r.2, WebPage.sentEditedPage)
    else if action = "reject" then
      let rejected := st.message.map rejectMessage
      let ps1 := clearPendingAction st.pending messageId
      let corr := Effect.correction (storeCorrection "sms" "reject" incomingContext
        (dbMessage.sms_conversations.map (fun c => c.phone_number))
        dbMessage.draft_body Option.none)
      ({ message := rejected, pending := ps1 }, [corr], WebPage.rejectedPage)
    else (st, [], WebPage.invalidAction)

/-! ## String matching primitives

The sources test fixed regular expressions against message text. Each pattern is
an alternation of literal substrings plus a handful of constructs (`\b`, `.?`,
`\d{1,n}`, `\s*`, `\s+`, character classes); the helpers below implement exactly
those constructs over `List Char`. -/

/-- JS `\w`: ASCII letter, digit or underscore. -/
def wordChar (c : Char) : Bool :=
  ('a' ≤ c && c ≤ 'z') || ('A' ≤ c && c ≤ 'Z') || c.isDigit || c = '_'

/-- Lower-casing as JS `toLowerCase`/the `i` flag fold the alphabet these patterns
use: ASCII letters plus the accented Latin-1 letters appearing in the French
patterns. -/
def jsLowerChar (c : Char) : Char :=
  if 'A' ≤ c && c ≤ 'Z' then Char.ofNat (c.toNat + 32)
  else if c = 'À' then 'à' else if c = 'Â' then 'â'
  else if c = 'É' then 'é' else if c = 'È' then 'è'
  else if c = 'Ê' then 'ê' else if c = 'Ë' then 'ë'
  else if c = 'Ï' then 'ï' else if c = 'Î' then 'î'
  else if c = 'Ô' then 'ô' else if c = 'Ù' then 'ù'
  else if c = 'Û' then 'û' else if c = 'Ü' then 'ü'
  else if c = 'Ç' then 'ç' else c

def jsToLower (s : String) : String :=
  String.mk (s.data.map jsLowerChar)

/-- `pat` occurs as a contiguous substring of the list. -/
def containsSub (pat : List Char) : List Char → Bool
  | [] => pat.isPrefixOf []
  | c :: t => pat.isPrefixOf (c :: t) || containsSub pat t

/-- Some suffix of the list satisfies `p` (a match may start at any position). -/
def anySuffix (p : List Char → Bool) : List Char → Bool
  | [] => p []
  | c :: t => p (c :: t) || anySuffix p t

/-- Like `anySuffix`, but `p` also sees the character preceding the position
(`none` at the start) — needed for leading `\b`. -/
def scanWithPrev (p : Option Char → List Char → Bool) : Option Char → List Char → Bool
  | prev, [] => p prev []
  | prev, c :: t => p prev (c :: t) || scanWithPrev p (Option.some c) t

/-- A `\b` to the left of a word character: start of string or a preceding
non-word character. (Every alternative these patterns bound starts with a word
character.) -/
def isBoundaryPrev (prev : Option Char) : Bool :=
  match prev with
  | Option.none => true
  | Option.some c => !(wordChar c)

/-- A `\b` to the right of a word character: end of string or a following
non-word character. -/
def isWordBoundaryAfter (rest : List Char) : Bool :=
  match rest with
  | [] => true
  | c :: _ => !(wordChar c)

/-- `w\b` at this position (`w` ending in a word character). -/
def matchWordTailBoundary (w : List Char) (s : List Char) : Bool :=
  w.isPrefixOf s && isWordBoundaryAfter (s.drop w.length)

/-- `\bw\b` somewhere in the list. -/
def containsBoundedWord (w : List Char) (s : List Char) : Bool :=
  scanWithPrev (fun prev rest => isBoundaryPrev prev && matchWordTailBoundary w rest)
    Option.none s

/-- `a.?b` somewhere in the list: `a`, then at most one character (which `.`
forbids to be a newline), then `b`. -/
def dotOptBetween (a b : List Char) (s : List Char) : Bool :=
  anySuffix (fun rest =>
    a.isPrefixOf rest &&
      (let r := rest.drop a.length
       b.isPrefixOf r ||
         (match r with
          | [] => false
          | c :: r2 => c ≠ '\n' && b.isPrefixOf r2))) s

/-- Consume exactly `k` digits, returning the remainder. -/
def takeDigits : Nat → List Char → Option (List Char)
  | 0, s => Option.some s
  | Nat.succ k, [] =>
    let _ := k
    Option.none
  | Nat.succ k, c :: t => if c.isDigit then takeDigits k t else Option.none

/-- `\d{lo,hi}` followed by a continuation: some admissible digit count leads to
a remainder accepted by `cont` (the finite backtracking of the bounded
repetition). -/
def digitsThen (lo hi : Nat) (cont : List Char → Bool) (s : List Char) : Bool :=
  (List.range (hi + 1)).any (fun k =>
    lo ≤ k &&
      match takeDigits k s with
      | Option.some r => cont r
      | Option.none => false)

/-! ## utils/validation.js -/

/-- The first character of the list is `c`. -/
def startsWithChar (c : Char) : List Char → Bool
  | [] => false
  | d :: _ => d = c

/-- `sanitizePhoneNumber(phone)`: strip everything but digits and plus signs, then
normalise bare 10/11-digit North American numbers to E.164. The JS function
returns `null` for falsy input; the empty string stands for that here. -/
def sanitizePhoneNumber (phone : String) : String :=
  if phone = "" then ""
  else
    let cleaned := phone.data.filter (fun c => c.isDigit || c = '+')
    if startsWithChar '+' cleaned then String.mk cleaned
    else if cleaned.length = 10 then String.mk ('+' :: '1' :: cleaned)
    else if cleaned.length = 11 && startsWithChar '1' cleaned then
      String.mk ('+' :: cleaned)
    else String.mk cleaned

/-- The alternatives of `(?:[Tt]his is|[Mm]y name is|[Ii]'m|[Ii] am)`, in the
pattern's order. -/
def namePrefixes : List String :=
  ["This is", "this is", "My name is", "my name is", "I'm", "i'm", "I am", "i am"]

def upperAlpha (c : Char) : Bool := 'A' ≤ c && c ≤ 'Z'

def lowerAlpha (c : Char) : Bool := 'a' ≤ c && c ≤ 'z'

/-- `[A-Z][a-z]+` at the head of the list, greedily; the match and the rest. -/
def parseCapWord : List Char → Option (List Char × List Char)
  | [] => Option.none
  | c :: t =>
    if upperAlpha c then
      let low := t.takeWhile lowerAlpha
      if 0 < low.length then Option.some (c :: low, t.drop low.length) else Option.none
    else Option.none

/-- Group 1 of the first name pattern: `[A-Z][a-z]+(?:\s+[A-Z][a-z]+)?`, the
optional second word taken greedily. -/
def parseFullName (s : List Char) : Option (List Char) :=
  match parseCapWord s with
  | Option.none => Option.none
  | Option.some (w1, r1) =>
    let sp := r1.takeWhile jsWhitespace
    if 0 < sp.length then
      match parseCapWord (r1.drop sp.length) with
      | Option.some (w2, _) => Option.some (w1 ++ sp ++ w2)
      | Option.none => Option.some w1
    else Option.some w1

/-- The first name pattern anchored at one position: a prefix alternative, then
`\s+`, then the captured name. -/
def pattern1At (s : List Char) : Option (List Char) :=
  namePrefixes.foldl
    (fun acc p =>
      match acc with
      | Option.some r => Option.some r
      | Option.none =>
        if p.data.isPrefixOf s then
          let r := s.drop p.data.length
          let sp := r.takeWhile jsWhitespace
          if 0 < sp.length then parseFullName (r.drop sp.length) else Option.none
        else Option.none)
    Option.none

/-- The first name pattern anywhere, leftmost position first (JS `match`). -/
def findPattern1 : List Char → Option (List Char)
  | [] => Option.none
  | c :: t =>
    match pattern1At (c :: t) with
    | Option.some r => Option.some r
    | Option.none => findPattern1 t

/-- `/^([A-Z][a-z]+)\s+here/`: the second name pattern, anchored at the start. -/
def pattern2 (s : List Char) : Option (List Char) :=
  match parseCapWord s with
  | Option.none => Option.none
  | Option.some (w, r) =>
    let sp := r.takeWhile jsWhitespace
    if 0 < sp.length && ("here".data.isPrefixOf (r.drop sp.length)) then Option.some w
    else Option.none

/-- `extractClientName(body)`: the first "This is X"-style match anywhere in the
message, else "X here" at the start; the captured group is trimmed. -/
def extractClientName (body : String) : Option String :=
  match findPattern1 body.data with
  | Option.some r => Option.some (jsTrim (String.mk r))
  | Option.none =>
    match pattern2 body.data with
    | Option.some w => Option.some (jsTrim (String.mk w))
    | Option.none => Option.none

/-! ## services/claude.js — language/inquiry detection and the first-contact template -/

/-- The single accented characters of the French-detection class. -/
def frenchChars : List Char :=
  ['à', 'â', 'é', 'è', 'ê', 'ë', 'ï', 'î', 'ô', 'ù', 'û', 'ü', 'ç']

/-- The literal alternatives of the French-detection pattern. -/
def frenchWords : List String :=
  ["bonjour", "salut", "merci", "disponible", "prix", "réserv", "bonsoir",
   "combien", "cherche", "fête", "soirée", "mariage", "événement", "personne",
   "barman", "cocktail pour"]

/-- `detectLanguage(text)`: `'fr'` when the case-insensitive French pattern
matches, `'en'` otherwise; falsy text is English. -/
def detectLanguage (text : String) : String :=
  if text = "" then "en"
  else
    let low := (jsToLower text).data
    if frenchChars.any (fun c => low.contains c) ||
        frenchWords.any (fun w => containsSub w.data low) then "fr"
    else "en"

/-- The workshop alternation:
`workshop|class|mixolog|team.?build|bachelorette.?activ|learn|cours|atelier|appren`. -/
def workshopPattern (low : List Char) : Bool :=
  containsSub "workshop".data low || containsSub "class".data low ||
  containsSub "mixolog".data low || dotOptBetween "team".data "build".data low ||
  dotOptBetween "bachelorette".data "activ".data low ||
  containsSub "learn".data low || containsSub "cours".data low ||
  containsSub "atelier".data low || containsSub "appren".data low

/-- The bar-service alternation:
`event|wedding|party|bartend|bar\b|cocktail|hire|gala|reception|mariag|noce|réception|servic`. -/
def barServicePattern (low : List Char) : Bool :=
  containsSub "event".data low || containsSub "wedding".data low ||
  containsSub "party".data low || containsSub "bartend".data low ||
  anySuffix (matchWordTailBoundary "bar".data) low ||
  containsSub "cocktail".data low || containsSub "hire".data low ||
  containsSub "gala".data low || containsSub "reception".data low ||
  containsSub "mariag".data low || containsSub "noce".data low ||
  containsSub "réception".data low || containsSub "servic".data low

/-- `detectInquiryType(text)`: workshop patterns first, then bar-service, else
`'unknown'`; falsy text is unknown. -/
def detectInquiryType (text : String) : String :=
  if text = "" then "unknown"
  else
    let low := (jsToLower text).data
    if workshopPattern low then "workshop"
    else if barServicePattern low then "bar_service"
    else "unknown"

/-- The month alternatives of the date-detection pattern. -/
def monthWords : List String :=
  ["jan", "feb", "mar", "apr", "may", "jun", "jul", "aug", "sep", "oct", "nov",
   "dec", "january", "february", "march", "april", "june", "july", "august",
   "september", "october", "november", "december", "janvier", "fevrier", "mars",
   "avril", "mai", "juin", "juillet", "aout", "septembre", "octobre", "novembre",
   "decembre"]

/-- `hasDate`: a `\b`-bounded month word, or `\d{1,2}[\/\-]\d{1,2}`. -/
def hasDatePattern (low : List Char) : Bool :=
  monthWords.any (fun w => containsBoundedWord w.data low) ||
  anySuffix (fun rest =>
    digitsThen 1 2
      (fun r =>
        match r with
        | c :: r2 => (c = '/' || c = '-') && digitsThen 1 2 (fun _ => true) r2
        | [] => false)
      rest) low

/-- The words closing the first guest-count alternative. -/
def guestWords : List String := ["guest", "person", "people", "personne", "invit"]

/-- `hasGuestCount`:
`\b\d{1,4}\s*(guest|person|people|personne|invit)|(?:team|group|party) of \d{1,4}|about \d{1,4}\b`. -/
def hasGuestCountPattern (low : List Char) : Bool :=
  scanWithPrev
    (fun prev rest =>
      isBoundaryPrev prev &&
        digitsThen 1 4
          (fun r => guestWords.any (fun w => w.data.isPrefixOf (r.dropWhile jsWhitespace)))
          rest)
    Option.none low ||
  anySuffix
    (fun rest =>
      (["team", "group", "party"] : List String).any (fun w =>
        w.data.isPrefixOf rest &&
          (let r := rest.drop w.data.length
           " of ".data.isPrefixOf r && digitsThen 1 4 (fun _ => true) (r.drop 4))))
    low ||
  anySuffix
    (fun rest =>
      "about ".data.isPrefixOf rest &&
        digitsThen 1 4 isWordBoundaryAfter (rest.drop 6))
    low

/-- The alternatives of the location pattern
`\b(at |in |venue|location|address|hotel|hall|salle|lieu|chez)\b`. -/
def locationAlternatives : List String :=
  ["at ", "in ", "venue", "location", "address", "hotel", "hall", "salle",
   "lieu", "chez"]

/-- The trailing `\b` of the location pattern: after an alternative ending in a
word character it needs a non-word follower (or the end); after the two
alternatives ending in a space it needs a word-character follower. -/
def trailingBoundary (w : List Char) (rest : List Char) : Bool :=
  match w.getLast? with
  | Option.some lastC =>
    if wordChar lastC then isWordBoundaryAfter rest
    else
      match rest with
      | [] => false
      | c :: _ => wordChar c
  | Option.none => false

/-- `hasLocation`: the bounded location alternation (each alternative starts with
a word character, so the leading `\b` is `isBoundaryPrev`). -/
def hasLocationPattern (low : List Char) : Bool :=
  scanWithPrev
    (fun prev rest =>
      isBoundaryPrev prev &&
        locationAlternatives.any (fun w =>
          w.data.isPrefixOf rest && trailingBoundary w.data (rest.drop w.data.length)))
    Option.none low

/-- `getFirstMessageTemplate(type, lang, name, incomingMessage)`: pick the template
for the inquiry type and language, greet by name when one is known, and prune the
questions whose answers the message already supplies. -/
def getFirstMessageTemplate (type lang name incomingMessage : String) : String :=
  let greeting :=
    if name ≠ "" then "Hey " ++ name ++ ","
    else if lang = "fr" then "Bonjour!" else "Hey there,"
  let low := (jsToLower incomingMessage).data
  let hasDate := hasDatePattern low
  let hasGuestCount := hasGuestCountPattern low
  let hasLocation := hasLocationPattern low
  if type = "workshop" then
    let questions :=
      (if !hasGuestCount then
        [if lang = "fr" then "- Combien de personnes dans le groupe?"
         else "- How many people in the group?"] else []) ++
      (if !hasDate then
        [if lang = "fr" then "- Quelle date?" else "- What date works?"] else []) ++
      (if !hasLocation then
        [if lang = "fr" then "- Quelle est l'adresse?"
         else "- What's the address?"] else [])
    let questionBlock :=
      if 0 < questions.length then
        "\n" ++ (if lang = "fr" then "Quelques details:" else "A few quick details:")
          ++ "\n" ++ String.intercalate "\n" questions ++ "\n"
      else ""
    if lang = "fr" then
      greeting ++
        "\n\nAbsolument! Nos ateliers sont super fun -- tout le monde met la main a la pate pour creer des cocktails.\n"
        ++ questionBlock ++
        "\nQuel est votre courriel? Je vous envoie le menu et la proposition."
    else
      greeting ++
        "\n\nWe do! Our workshops are super fun -- everyone gets hands-on making craft cocktails.\n"
        ++ questionBlock ++
        "\nWhat's your email? I'll send over the menu and proposal."
  else if type = "bar_service" then
    let questions :=
      (if !hasDate || !hasLocation then
        [if lang = "fr" then "- La date et le lieu, de quelle heure a quelle heure?"
         else "- The date and location, from what time to what time?"] else []) ++
      [if lang = "fr" then "- Location de bar ou installation sur un espace existant?"
       else "- Bar rental or setup on an existing space?"] ++
      [if lang = "fr" then "- Vraie verrerie ou plastique?"
       else "- Real glassware or plastic?"] ++
      [if lang = "fr" then "- Vous fournissez l'alcool ou nous?"
       else "- Would you like to supply the alcohol or us?"]
    if lang = "fr" then
      greeting ++
        "\n\nMerci de nous avoir contactes! Pour preparer votre proposition, quelques questions:\n"
        ++ String.intercalate "\n" questions ++
        "\n\nLes deux options sont cle en main. Une fois les cocktails choisis, si vous fournissez l'alcool, on vous dit exactement quoi avoir sous la main.\n\nQuel est votre courriel? Je vous envoie la proposition et le menu."
    else
      greeting ++
        "\n\nThanks for reaching out! To put together your proposal, a few quick questions:\n"
        ++ String.intercalate "\n" questions ++
        "\n\nBoth options are completely turnkey. Once you choose the cocktails, if you supply the alcohol, we'll let you know exactly what to have on hand.\n\nWhat's your email? I'll send you the proposal and menu."
  else
    if lang = "fr" then
      greeting ++
        "\n\nMerci pour votre message! On offre des services de bar pour evenements et des ateliers de mixologie.\n\nVous cherchez quel type de service? Quelques details pour commencer:\n- La date et le nombre de personnes?\n- Le lieu?\n\nQuel est votre courriel? Je vous envoie l'info."
    else
      greeting ++
        "\n\nThanks for reaching out! We offer bar service for events and cocktail workshops.\n\nWhat type of service are you looking for? A few basics to get started:\n- The date and group size?\n- The location?\n\nWhat's your email? I'll send you the details."

/-- `generateFirstMessageReply(incomingMessage, clientName)`: detect language and
inquiry type, then fill the template (no model call on first contact). -/
def generateFirstMessageReply (incomingMessage : String) (clientName : Option String) :
    String :=
  let lang := detectLanguage incomingMessage
  let type := detectInquiryType incomingMessage
  let name := jsOr clientName ""
  getFirstMessageTemplate type lang name incomingMessage

/-! ## services/smsProcessor.js — the inbound pipeline -/

/-- One `sms_conversations` row. Fresh rows get the next unused key, standing for
the uuid the database generates. -/
structure ConversationRow where
  id : String
  phone_number : String
  client_name : Option String
  message_count : Nat
  last_message_at : Nat
  status : String
  deriving DecidableEq, Repr

/-- The persistent store the pipeline reads and writes: the two tables. -/
structure Db where
  conversations : List ConversationRow
  messages : List MsgRow
  deriving DecidableEq, Repr

/-- `getOrCreateConversation(phoneNumber, clientName)`: an existing row (matched by
phone number) gets its activity timestamp refreshed, its message count incremented
and — only when it has no name yet and one was extracted — the name backfilled; a
missing row is created with count 1. Returns the row the caller sees and the
updated table. -/
def getOrCreateConversation (db : Db) (now : Nat) (phoneNumber : String)
    (clientName : Option String) : ConversationRow × Db :=
  match db.conversations.find? (fun c => c.phone_number = phoneNumber) with
  | Option.some existing =>
    let updated : ConversationRow :=
      { existing with
        last_message_at := now
        message_count := existing.message_count + 1
        client_name :=
          if truthy clientName && !(truthy existing.client_name) then clientName
          else existing.client_name }
    (updated,
     { db with
       conversations :=
         db.conversations.map (fun c => if c.id = existing.id then updated else c) })
  | Option.none =>
    let newConvo : ConversationRow :=
      { id := "c" ++ toString db.conversations.length
        phone_number := phoneNumber
        client_name := clientName
        message_count := 1
        last_message_at := now
        status := "active" }
    (newConvo, { db with conversations := db.conversations ++ [newConvo] })

/-- Whether the dedup query reached the database or errored. -/
inductive LookupOutcome
  | ok
  | errored
  deriving DecidableEq, Repr

/-- `checkMessageExists(twilioSid)`: whether a message with this provider id is
stored. The code reads only `data` from the query result, so a query error leaves
`data` null and the function returns `false` — lookup failures are fail-open. -/
def checkMessageExists (db : Db) (outcome : LookupOutcome) (twilioSid : String) : Bool :=
  match outcome with
  | LookupOutcome.errored => false
  | LookupOutcome.ok => db.messages.any (fun m => m.twilio_sid = Option.some twilioSid)

/-- `storeIncomingMessage(conversationId, twilioSid, body)`: insert the inbound row
with status `received`. -/
def storeIncomingMessage (db : Db) (conversationId : String) (twilioSid : Option String)
    (body : String) : MsgRow × Db :=
  let row : MsgRow :=
    { id := "m" ++ toString db.messages.length
      conversation_id := conversationId
      direction := "inbound"
      body := body
      draft_body := Option.none
      twilio_sid := twilioSid
      status := Status.received
      approved_at := Option.none
      sent_at := Option.none
      sms_conversations := Option.none }
  (row, { db with messages := db.messages ++ [row] })

/-- `storeDraftReply(conversationId, draftBody)`: insert the outbound draft row with
empty body and status `pending_approval`. -/
def storeDraftReply (db : Db) (conversationId : String) (draftBody : String) :
    MsgRow × Db :=
  let row : MsgRow :=
    { id := "m" ++ toString db.messages.length
      conversation_id := conversationId
      direction := "outbound"
      body := ""
      draft_body := Option.some draftBody
      twilio_sid := Option.none
      status := Status.pending_approval
      approved_at := Option.none
      sent_at := Option.none
      sms_conversations := Option.none }
  (row, { db with messages := db.messages ++ [row] })

/-- `approveMessage` as the update it performs on the table: the row with the given
id gets `approveMessage` applied (body from `finalBody || draft_body || ''`,
status approved, approval timestamp). -/
def approveMessageDb (db : Db) (messageId : String) (finalBody : Option String)
    (now : Nat) : Db :=
  { db with
    messages :=
      db.messages.map (fun m =>
        if m.id = messageId then approveMessage m finalBody now else m) }

/-- The inbound webhook payload the pipeline receives. -/
structure IncomingSms where
  fromNumber : String
  toNumber : String
  body : String
  messageSid : Option String
  deriving DecidableEq, Repr

/-- The `data` object of the `evaluateMenuChange` response. -/
structure ActionData where
  status : String
  action : Option String
  summary : Option String
  deriving DecidableEq, Repr

/-- The `evaluateMenuChange` response. -/
structure ActionResult where
  ok : Bool
  data : Option ActionData
  deriving DecidableEq, Repr

/-- Outcomes of the pipeline's external calls: the dedup query, the action
evaluation, the generated draft text, and the Telegram approval request (the
message id on success, `none` on failure). -/
structure PipelineOracles where
  dedupLookup : LookupOutcome
  actionResult : ActionResult
  draftReply : String
  telegramResult : Option Nat
  deriving DecidableEq, Repr

/-- `canSendApproval()`: whether the Telegram bot token and chat id are
configured. -/
structure PipelineEnv where
  telegramConfigured : Bool
  deriving DecidableEq, Repr

/-- The pipeline's return value (the fields the claims observe). -/
structure ProcessResult where
  success : Bool
  duplicate : Bool
  draftId : Option String
  approvalSent : Bool
  deriving DecidableEq, Repr

/-- Outward calls the pipeline makes: the MTL inbound mirror and the Telegram
approval request. `smsSendAttempt` records a call to the provider's send API;
`processIncomingMessage` contains no `sendSMS` call, so the pipeline never emits
it (the constructor exists so that its absence is an observable statement). -/
inductive PipelineEffect
  | mtlInboundSync (body : String)
  | approvalRequest (draftId : String) (draftReply : String)
  | smsSendAttempt (toNumber body : String)
  deriving DecidableEq, Repr

/-- The provider send attempts among pipeline effects. -/
def pipelineSends (effs : List PipelineEffect) : List PipelineEffect :=
  effs.filter (fun e =>
    match e with
    | PipelineEffect.smsSendAttempt _ _ => true
    | _ => false)

/-- The pipeline after the dedup guard has passed: store the inbound row, mirror it,
(the read-only context fan-out is elided — its results reach the model only through
the draft oracle), store the draft, register a pending action when the evaluation
is `ready` with an action, then attempt the approval notification; when that
notification fails, auto-approve the draft with its own text. -/
def processFresh (db1 : Db) (ps : PendingStore) (conversation : ConversationRow)
    (msg : IncomingSms) (sendApprovalOpt : Bool) (env : PipelineEnv)
    (o : PipelineOracles) (now : Nat) :
    Db × PendingStore × List PipelineEffect × ProcessResult :=
  let stored := storeIncomingMessage db1 conversation.id msg.messageSid msg.body
  let db2 := stored.2
  let effs0 := [PipelineEffect.mtlInboundSync msg.body]
  let drafted := storeDraftReply db2 conversation.id o.draftReply
  let draftMessage := drafted.1
  let db3 := drafted.2
  let ps1 :=
    match o.actionResult.data with
    | Option.some d =>
      if o.actionResult.ok && d.status = "ready" && truthy d.action then
        setPendingAction ps now draftMessage.id (d.action.getD "")
          (jsOr d.summary "Menu update")
      else ps
    | Option.none => ps
  let shouldSendApproval := sendApprovalOpt && env.telegramConfigured
  if shouldSendApproval then
    let effs := effs0 ++ [PipelineEffect.approvalRequest draftMessage.id o.draftReply]
    match o.telegramResult with
    | Option.some _ =>
      (db3, ps1, effs,
       { success := true, duplicate := false, draftId := Option.some draftMessage.id,
         approvalSent := true })
    | Option.none =>
      let db4 := approveMessageDb db3 draftMessage.id (Option.some o.draftReply) now
      (db4, ps1, effs,
       { success := true, duplicate := false, draftId := Option.some draftMessage.id,
         approvalSent := false })
  else
    (db3, ps1, effs0,
     { success := true, duplicate := false, draftId := Option.some draftMessage.id,
       approvalSent := false })

/-- `processIncomingMessage(message, options)`: sanitize the sender, extract a
client name, get-or-create the conversation (this write happens before the dedup
guard), then short-circuit on a duplicate provider id — a duplicate returns
`{ success: true, duplicate: true }` with nothing stored, no draft, no pending
action and no notification. Otherwise continue with `processFresh`. -/
def processIncomingMessage (db : Db) (ps : PendingStore) (msg : IncomingSms)
    (sendApprovalOpt : Bool) (env : PipelineEnv) (o : PipelineOracles) (now : Nat) :
    Db × PendingStore × List PipelineEffect × ProcessResult :=
  let phoneNumber := sanitizePhoneNumber msg.fromNumber
  let clientName := extractClientName msg.body
  let created := getOrCreateConversation db now phoneNumber clientName
  let conversation := created.1
  let db1 := created.2
  match msg.messageSid with
  | Option.some sid =>
    if checkMessageExists db1 o.dedupLookup sid then
      (db1, ps, [],
       { success := true, duplicate := true, draftId := Option.none,
         approvalSent := false })
    else processFresh db1 ps conversation msg sendApprovalOpt env o now
  | Option.none => processFresh db1 ps conversation msg sendApprovalOpt env o now

/-! ## services/reminderScheduler.js -/

/-- Reminder lifecycle statuses. -/
inductive ReminderStatus
  | pending
  | calling
  | completed
  | failed
  | cancelled
  deriving DecidableEq, Repr

/-- One `reminders` row (the fields the scheduler's state machine touches). -/
structure Reminder where
  status : ReminderStatus
  retry_count : Nat
  deriving DecidableEq, Repr

/-- Outcome of the Vapi call attempt: a placed call (`response.ok` with an id) or
any failure (error response or thrown exception). -/
inductive CallOutcome
  | placed (callId : String)
  | callFailed
  deriving DecidableEq, Repr

/-- `handleReminderFailure(reminder)`: increment the retry counter; at three
failures mark the reminder failed, otherwise return it to pending for the next
cycle. -/
def handleReminderFailure (reminder : Reminder) : Reminder :=
  let newRetryCount := reminder.retry_count + 1
  if 3 ≤ newRetryCount then
    { status := ReminderStatus.failed, retry_count := newRetryCount }
  else
    { status := ReminderStatus.pending, retry_count := newRetryCount }

/-- `processReminder(reminder)`: claim via the optimistic lock (the `calling` update
conditioned on `status = 'pending'`); only a successful claim places the call. The
Bool records whether a call attempt was made. On success the row is completed; on
failure `handleReminderFailure` decides between retry and terminal failure. -/
def processReminder (reminder : Reminder) (outcome : CallOutcome) : Reminder × Bool :=
  if reminder.status = ReminderStatus.pending then
    match outcome with
    | CallOutcome.placed _ =>
      ({ status := ReminderStatus.completed, retry_count := reminder.retry_count }, true)
    | CallOutcome.callFailed => (handleReminderFailure reminder, true)
  else (reminder, false)

/-- A sequence of scheduler cycles touching one reminder. -/
def runReminder (r : Reminder) : List CallOutcome → Reminder
  | [] => r
  | o :: os => runReminder (processReminder r o).1 os

/-! ## Observers -/

/-- The status of the decision routes' message row. -/
def msgStatus (st : ApprovalState) : Option Status :=
  st.message.map (fun m => m.status)

/-- The Twilio sends among a decision route's effects. -/
def sendsOf (effs : List Effect) : List Effect :=
  effs.filter (fun e =>
    match e with
    | Effect.smsSend _ _ => true
    | _ => false)

/-- The correction rows inserted among a decision route's effects. -/
def correctionsOf (effs : List Effect) : List CorrectionInsert :=
  effs.filterMap (fun e =>
    match e with
    | Effect.correction r => Option.some r
    | _ => Option.none)

/-! ## Fixtures for concrete runs -/

def convFix : Conversation :=
  { phone_number := "+15145550100", client_name := Option.some "Sarah" }

/-- An outbound row that has already been sent. -/
def sentRowFix : MsgRow :=
  { id := "m1", conversation_id := "c0", direction := "outbound", body := "Hello",
    draft_body := Option.some "Hello", twilio_sid := Option.some "SMx",
    status := Status.sent, approved_at := Option.some 5, sent_at := Option.some 6,
    sms_conversations := Option.some convFix }

/-- An outbound row still awaiting a decision. -/
def pendingRowFix : MsgRow :=
  { sentRowFix with
    body := "", twilio_sid := Option.none, status := Status.pending_approval,
    approved_at := Option.none, sent_at := Option.none }

def applyOkFix : ApplyResult :=
  { ok := true, dataStatus := Option.some "applied", dataSummary := Option.some "Swapped",
    dataError := Option.none, error := Option.none }

def applyFailFix : ApplyResult :=
  { ok := false, dataStatus := Option.none, dataSummary := Option.none,
    dataError := Option.none, error := Option.some "boom" }

def smsOkFix : SmsResult := { success := true, sid := "SMnew", error := "" }

/-! ## Claim theorems -/

/-- C10: `approveMessage` with a null or empty final body falls back to the stored
draft text (empty when no draft exists); a non-empty final body overrides the
draft; in every case the status becomes `approved` and the approval timestamp is
recorded. -/
theorem approveMessage_body_and_status (m : MsgRow) (s : String) (now : Nat) :
    ((approveMessage m Option.none now).body = m.draft_body.getD ""
      ∧ (approveMessage m (Option.some "") now).body = m.draft_body.getD "")
    ∧ (s ≠ "" → (approveMessage m (Option.some s) now).body = s)
    ∧ (∀ fb : Option String,
        (approveMessage m fb now).status = Status.approved
          ∧ (approveMessage m fb now).approved_at = Option.some now) := by
  refine ⟨⟨?_, ?_⟩, ?_, ?_⟩
  · rcases hd : m.draft_body with _ | d
    · simp [approveMessage, jsOr, truthy, hd]
    · by_cases hde : d = "" <;> simp [approveMessage, jsOr, truthy, hd, hde]
  · rcases hd : m.draft_body with _ | d
    · simp [approveMessage, jsOr, truthy, hd]
    · by_cases hde : d = "" <;> simp [approveMessage, jsOr, truthy, hd, hde]
  · intro hs
    simp [approveMessage, jsOr, truthy, hs]
  · intro fb
    exact ⟨rfl, rfl⟩

theorem approveMessage_body_and_status_witness :
    ((approveMessage pendingRowFix Option.none 7).body = pendingRowFix.draft_body.getD ""
      ∧ (approveMessage pendingRowFix (Option.some "") 7).body
          = pendingRowFix.draft_body.getD "")
    ∧ ("Edited" ≠ "" → (approveMessage pendingRowFix (Option.some "Edited") 7).body
        = "Edited")
    ∧ (∀ fb : Option String,
        (approveMessage pendingRowFix fb 7).status = Status.approved
          ∧ (approveMessage pendingRowFix fb 7).approved_at = Option.some 7) :=
  approveMessage_body_and_status pendingRowFix "Edited" 7

/-- Once a reminder is failed, no scheduler cycle touches it again. -/
theorem runReminder_of_failed (r : Reminder) (os : List CallOutcome)
    (hf : r.status = ReminderStatus.failed) : runReminder r os = r := by
  induction os with
  | nil => rfl
  | cons o os ih =>
    have hstep : processReminder r o = (r, false) := by
      simp [processReminder, hf]
    simp [runReminder, hstep, ih]

/-- C8: the retry counter is capped at 3. A call attempt happens only via a claim
on a pending reminder; each failed attempt increments the counter and returns the
reminder to pending until the counter reaches 3, when the reminder becomes failed;
a failed reminder is never attempted again, over any sequence of cycles. -/
theorem reminder_retry_capped (r : Reminder) (o : CallOutcome) (os : List CallOutcome)
    (hinv : r.status = ReminderStatus.pending → r.retry_count < 3)
    (hle : r.retry_count ≤ 3) :
    ((processReminder r o).1.status = ReminderStatus.pending →
        (processReminder r o).1.retry_count < 3)
    ∧ (processReminder r o).1.retry_count ≤ 3
    ∧ ((processReminder r o).2 = true → r.status = ReminderStatus.pending)
    ∧ (r.status = ReminderStatus.failed → processReminder r o = (r, false))
    ∧ (r.status = ReminderStatus.failed → runReminder r os = r)
    ∧ (o = CallOutcome.callFailed → r.status = ReminderStatus.pending →
        (processReminder r o).1.retry_count = r.retry_count + 1
          ∧ (processReminder r o).1.status =
              (if 3 ≤ r.retry_count + 1 then ReminderStatus.failed
               else ReminderStatus.pending)) := by
  by_cases hp : r.status = ReminderStatus.pending
  · have hc := hinv hp
    rcases o with cid | _
    · refine ⟨?_, ?_, ?_, ?_, ?_, ?_⟩
      · intro h
        simp [processReminder, hp] at h
      · simpa [processReminder, hp] using hle
      · intro _
        exact hp
      · intro hf
        rw [hp] at hf
        cases hf
      · intro hf
        rw [hp] at hf
        cases hf
      · intro ho
        cases ho
    · refine ⟨?_, ?_, ?_, ?_, ?_, ?_⟩
      · intro h
        simp only [processReminder, hp, if_pos rfl] at h ⊢
        simp only [handleReminderFailure] at h ⊢
        by_cases h3 : 3 ≤ r.retry_count + 1
        · simp [h3] at h
        · simp [h3]
          omega
      · simp only [processReminder, hp, if_pos rfl, handleReminderFailure]
        by_cases h3 : 3 ≤ r.retry_count + 1 <;> simp [h3] <;> omega
      · intro _
        exact hp
      · intro hf
        rw [hp] at hf
        cases hf
      · intro hf
        rw [hp] at hf
        cases hf
      · intro _ _
        simp only [processReminder, hp, if_pos rfl, handleReminderFailure]
        by_cases h3 : 3 ≤ r.retry_count + 1 <;> simp [h3]
  · have hstep : processReminder r o = (r, false) := by
      simp [processReminder, hp]
    refine ⟨?_, ?_, ?_, ?_, ?_, ?_⟩
    · intro h
      rw [hstep] at h ⊢
      exact hinv h
    · rw [hstep]
      exact hle
    · intro h
      rw [hstep] at h
      cases h
    · intro _
      exact hstep
    · intro hf
      exact runReminder_of_failed r os hf
    · intro _ hpend
      exact absurd hpend hp

/-- A pending reminder two failed attempts in. -/
def reminderFix : Reminder := { status := ReminderStatus.pending, retry_count := 2 }

theorem reminder_retry_capped_witness :
    ((processReminder reminderFix CallOutcome.callFailed).1.status
        = ReminderStatus.pending →
      (processReminder reminderFix CallOutcome.callFailed).1.retry_count < 3)
    ∧ (processReminder reminderFix CallOutcome.callFailed).1.retry_count ≤ 3
    ∧ ((processReminder reminderFix CallOutcome.callFailed).2 = true →
        reminderFix.status = ReminderStatus.pending)
    ∧ (reminderFix.status = ReminderStatus.failed →
        processReminder reminderFix CallOutcome.callFailed = (reminderFix, false))
    ∧ (reminderFix.status = ReminderStatus.failed →
        runReminder reminderFix [CallOutcome.callFailed, CallOutcome.callFailed]
          = reminderFix)
    ∧ (CallOutcome.callFailed = CallOutcome.callFailed →
        reminderFix.status = ReminderStatus.pending →
        (processReminder reminderFix CallOutcome.callFailed).1.retry_count
            = reminderFix.retry_count + 1
          ∧ (processReminder reminderFix CallOutcome.callFailed).1.status =
              (if 3 ≤ reminderFix.retry_count + 1 then ReminderStatus.failed
               else ReminderStatus.pending)) :=
  reminder_retry_capped reminderFix CallOutcome.callFailed
    [CallOutcome.callFailed, CallOutcome.callFailed] (by decide) (by decide)

/-- Deleting a key makes it unreadable. -/
theorem mapGet_mapDelete (s : PendingStore) (k : String) :
    mapGet (mapDelete s k) k = Option.none := by
  induction s with
  | nil => rfl
  | cons e t ih => by_cases h : e.1 = k <;> simp [mapDelete, mapGet, h, ih]

/-- Setting a key makes exactly that value readable. -/
theorem mapGet_mapSet (s : PendingStore) (k : String) (v : PendingAction) :
    mapGet (mapSet s k v) k = Option.some v := by
  induction s with
  | nil => simp [mapSet, mapGet]
  | cons e t ih => by_cases h : e.1 = k <;> simp [mapSet, mapGet, h, ih]

/-- Executing against a store whose key was deleted applies nothing and leaves the
store alone. -/
theorem executePendingAction_cleared (s : PendingStore) (now2 : Nat) (k : String)
    (ar2 : ApplyResult) :
    executePendingAction (mapDelete s k) now2 k ar2
      = (ExecStatus.nothingToApply, mapDelete s k) := by
  simp [executePendingAction, getPendingAction, mapGet_mapDelete]

/-- C3: a successfully applied pending action is removed, so a second execution for
the same message id finds nothing and applies nothing; and an entry set at time `t`
read strictly more than the 6-hour TTL later is absent, the entry being deleted by
that read. -/
theorem pendingAction_once_and_ttl (ps : PendingStore) (now now2 t : Nat)
    (messageId ty sm summary : String) (ar ar2 : ApplyResult) :
    (∀ s2 : PendingStore,
      executePendingAction ps now messageId ar = (ExecStatus.applied summary, s2) →
      executePendingAction s2 now2 messageId ar2 = (ExecStatus.nothingToApply, s2))
    ∧ (messageId ≠ "" → t + ACTION_TTL_MS < now →
        (getPendingAction (setPendingAction ps t messageId ty sm) now messageId).1
            = Option.none
          ∧ mapGet ((getPendingAction (setPendingAction ps t messageId ty sm) now
              messageId).2) messageId = Option.none) := by
  constructor
  · intro s2 h
    unfold executePendingAction at h
    split at h
    · simp at h
    · split at h
      · split at h
        · simp at h
        · simp only [Prod.mk.injEq] at h
          rw [← h.2]
          exact executePendingAction_cleared _ now2 messageId ar2
      · simp at h
  · intro hid hexp
    have hset : mapGet (setPendingAction ps t messageId ty sm) messageId
        = Option.some { type := ty, summary := sm, timestamp := t } := by
      simp [setPendingAction, hid, mapGet_mapSet]
    have hc : ACTION_TTL_MS < now - t := by
      unfold ACTION_TTL_MS at hexp ⊢
      omega
    constructor
    · simp [getPendingAction, hset, hc]
    · simp [getPendingAction, hset, hc, mapGet_mapDelete]

/-- A store holding one registered menu action. -/
def pendingStoreFix : PendingStore :=
  [("m1", { type := "update_menu", summary := "Swap", timestamp := 0 })]

theorem pendingAction_once_and_ttl_witness :
    (executePendingAction pendingStoreFix 5 "m1" applyOkFix
        = (ExecStatus.applied "Swapped", [])
      ∧ executePendingAction [] 6 "m1" applyOkFix = (ExecStatus.nothingToApply, []))
    ∧ ((getPendingAction (setPendingAction [] 0 "m1" "update_menu" "Swap") 21600001
          "m1").1 = Option.none
        ∧ mapGet ((getPendingAction (setPendingAction [] 0 "m1" "update_menu" "Swap")
            21600001 "m1").2) "m1" = Option.none) :=
  ⟨⟨by decide,
    (pendingAction_once_and_ttl pendingStoreFix 5 6 0 "m1" "update_menu" "Swap"
      "Swapped" applyOkFix applyOkFix).1 [] (by decide)⟩,
   (pendingAction_once_and_ttl [] 21600001 0 0 "m1" "update_menu" "Swap" "Swapped"
      applyOkFix applyOkFix).2 (by decide) (by decide)⟩

/-- C2: when a registered, unexpired menu action's apply call fails or returns a
non-applied status, the approval event performs no SMS send, the message does not
reach `sent`, and the failure is surfaced to the reviewer. -/
theorem applyFailure_blocks_send (st : ApprovalState) (messageId : String)
    (body : Option String) (tg : Option Nat) (isEdit : Bool) (now : Nat)
    (ar : ApplyResult) (sr : SmsResult) (m : MsgRow) (conv : Conversation)
    (p : PendingAction)
    (hm : st.message = Option.some m)
    (hc : m.sms_conversations = Option.some conv)
    (hp : (getPendingAction st.pending now messageId).1 = Option.some p)
    (ht : p.type = "update_menu" ∨ p.type = "add_menu" ∨ p.type = "remove_menu")
    (hfail : ar.ok = false ∨ ar.dataStatus ≠ Option.some "applied") :
    sendsOf (sendApprovedSms st messageId body tg isEdit now ar sr).2 = []
    ∧ msgStatus (sendApprovedSms st messageId body tg isEdit now ar sr).1
        ≠ Option.some Status.sent
    ∧ Effect.telegramNotify ("Failed to apply action: "
          ++ jsOr ar.error (jsOr ar.dataError "Menu update failed"))
        ∈ (sendApprovedSms st messageId body tg isEdit now ar sr).2 := by
  have hexec : executePendingAction st.pending now messageId ar
      = (ExecStatus.failed (jsOr ar.error (jsOr ar.dataError "Menu update failed")),
         (getPendingAction st.pending now messageId).2) := by
    unfold executePendingAction
    rcases hgp : getPendingAction st.pending now messageId with ⟨v, s1⟩
    rw [hgp] at hp
    simp only [] at hp
    subst hp
    dsimp only
    rw [if_pos ht, if_pos hfail]
  have hss : sendApprovedSms st messageId body tg isEdit now ar sr
      = ({ message := Option.some
             (approveMessage m (if isEdit then body else Option.none) now),
           pending := (getPendingAction st.pending now messageId).2 },
         [Effect.telegramNotify ("Failed to apply action: "
             ++ jsOr ar.error (jsOr ar.dataError "Menu update failed"))]) := by
    unfold sendApprovedSms
    rw [hm]
    dsimp only
    rw [hc]
    dsimp only
    rw [hexec]
  rw [hss]
  refine ⟨rfl, ?_, ?_⟩
  · simp [msgStatus, approveMessage]
  · simp

/-- A decision-route state: a pending-approval row with a registered menu action. -/
def approvalStFix : ApprovalState :=
  { message := Option.some pendingRowFix, pending := pendingStoreFix }

/-- The pending action registered in `pendingStoreFix`. -/
def pendingActionFix : PendingAction :=
  { type := "update_menu", summary := "Swap", timestamp := 0 }

theorem applyFailure_blocks_send_witness :
    sendsOf (sendApprovedSms approvalStFix "m1" Option.none Option.none false 5
        applyFailFix smsOkFix).2 = []
    ∧ msgStatus (sendApprovedSms approvalStFix "m1" Option.none Option.none false 5
        applyFailFix smsOkFix).1 ≠ Option.some Status.sent
    ∧ Effect.telegramNotify ("Failed to apply action: "
          ++ jsOr applyFailFix.error (jsOr applyFailFix.dataError "Menu update failed"))
        ∈ (sendApprovedSms approvalStFix "m1" Option.none Option.none false 5
            applyFailFix smsOkFix).2 :=
  applyFailure_blocks_send approvalStFix "m1" Option.none Option.none false 5
    applyFailFix smsOkFix pendingRowFix convFix pendingActionFix
    (by decide) (by decide) (by decide) (by decide) (by decide)

/-- A decision-route state whose row has already been sent. -/
def sentStFix : ApprovalState :=
  { message := Option.some sentRowFix, pending := [] }

/-- C1 counterexample: a Telegram approve callback on a message that has already
been `sent` is not rejected as already-processed — it re-approves the row and
performs another SMS send, changing the stored state. -/
theorem decision_after_sent_counterexample :
    Effect.smsSend "+15145550100" "Hello"
        ∈ (handleApprove sentStFix "m1" 42 100 applyOkFix smsOkFix).2
    ∧ (handleApprove sentStFix "m1" 42 100 applyOkFix smsOkFix).1 ≠ sentStFix := by
  decide

/-- `sendApprovedSms` never writes `pending_approval` back. -/
theorem sendApprovedSms_no_reenter (st : ApprovalState) (mid : String)
    (b : Option String) (tg : Option Nat) (e : Bool) (now : Nat) (ar : ApplyResult)
    (sr : SmsResult) :
    msgStatus (sendApprovedSms st mid b tg e now ar sr).1
        = Option.some Status.pending_approval →
    msgStatus st = Option.some Status.pending_approval := by
  intro h
  unfold sendApprovedSms at h
  rcases hm : st.message with _ | m
  · rw [hm] at h
    exact h
  · rw [hm] at h
    dsimp only at h
    rcases hc : m.sms_conversations with _ | conv
    · rw [hc] at h
      exact h
    · rw [hc] at h
      dsimp only at h
      split at h
      · simp [msgStatus, approveMessage] at h
      · split at h
        · simp [msgStatus, markMessageSent] at h
        · simp [msgStatus, approveMessage] at h

/-- `handleReject` never writes `pending_approval` back. -/
theorem handleReject_no_reenter (st : ApprovalState) (mid : String)
    (ic : Option String) :
    msgStatus (handleReject st mid ic).1 = Option.some Status.pending_approval →
    msgStatus st = Option.some Status.pending_approval := by
  intro h
  unfold handleReject at h
  rcases hm : st.message with _ | m <;> rw [hm] at h <;>
    simp [msgStatus, rejectMessage] at h

/-- The Telegram callback dispatcher never writes `pending_approval` back. -/
theorem handleCallbackQuery_no_reenter (st : ApprovalState) (action mid : String)
    (tg : Nat) (ic : Option String) (now : Nat) (ar : ApplyResult) (sr : SmsResult) :
    msgStatus (handleCallbackQuery st action mid tg ic now ar sr).1
        = Option.some Status.pending_approval →
    msgStatus st = Option.some Status.pending_approval := by
  intro h
  unfold handleCallbackQuery at h
  split at h
  · exact sendApprovedSms_no_reenter st mid Option.none (Option.some tg) false now
      ar sr h
  · split at h
    · exact handleReject_no_reenter st mid ic h
    · exact h

/-- The web decision route never writes `pending_approval` back. -/
theorem webApprovalPost_no_reenter (st : ApprovalState) (mid action : String)
    (eb ic : Option String) (now : Nat) (ar : ApplyResult) (sr : SmsResult) :
    msgStatus (webApprovalPost st mid action eb ic now ar sr).1
        = Option.some Status.pending_approval →
    msgStatus st = Option.some Status.pending_approval := by
  intro h
  unfold webApprovalPost at h
  rcases hm : st.message with _ | m
  · rw [hm] at h
    exact h
  · rw [hm] at h
    dsimp only at h
    split at h
    · exact h
    · split at h
      · exact sendApprovedSms_no_reenter st mid Option.none Option.none false now
          ar sr h
      · split at h
        · split at h
          · exact h
          · exact sendApprovedSms_no_reenter st mid _ Option.none true now ar sr h
        · split at h
          · simp [msgStatus, rejectMessage] at h
          · exact h

/-- C1 (amended): the web-form front-end rejects a decision on a message already
outside `pending_approval` as already-processed, with no send, no effect and no
state change; and no decision route — web or Telegram — ever returns a message to
`pending_approval`. The Telegram callback front-end, however, performs no
already-processed check (see the counterexample), so the already-processed
rejection holds only for the web form. -/
theorem approval_monotonic_web_guard (st st2 st3 : ApprovalState)
    (messageId action a2 mid2 a3 mid3 : String)
    (editedBody incomingContext eb2 ic2 ic3 : Option String)
    (now n2 n3 tg3 : Nat)
    (ar ar2 ar3 : ApplyResult) (sr sr2 sr3 : SmsResult) (m : MsgRow)
    (hm : st.message = Option.some m)
    (hs : m.status = Status.sent ∨ m.status = Status.rejected ∨
      m.status = Status.approved) :
    webApprovalPost st messageId action editedBody incomingContext now ar sr
        = (st, [], WebPage.alreadyProcessed m.status)
    ∧ (msgStatus (webApprovalPost st2 mid2 a2 eb2 ic2 n2 ar2 sr2).1
          = Option.some Status.pending_approval →
        msgStatus st2 = Option.some Status.pending_approval)
    ∧ (msgStatus (handleCallbackQuery st3 a3 mid3 tg3 ic3 n3 ar3 sr3).1
          = Option.some Status.pending_approval →
        msgStatus st3 = Option.some Status.pending_approval) := by
  refine ⟨?_, webApprovalPost_no_reenter st2 mid2 a2 eb2 ic2 n2 ar2 sr2,
    handleCallbackQuery_no_reenter st3 a3 mid3 tg3 ic3 n3 ar3 sr3⟩
  unfold webApprovalPost
  rw [hm]
  dsimp only
  rw [if_pos hs]

theorem approval_monotonic_web_guard_witness :
    webApprovalPost sentStFix "m1" "approve" Option.none Option.none 100 applyOkFix
        smsOkFix = (sentStFix, [], WebPage.alreadyProcessed sentRowFix.status)
    ∧ (msgStatus (webApprovalPost sentStFix "m1" "approve" Option.none Option.none
          100 applyOkFix smsOkFix).1 = Option.some Status.pending_approval →
        msgStatus sentStFix = Option.some Status.pending_approval)
    ∧ (msgStatus (handleCallbackQuery sentStFix "approve" "m1" 42 Option.none 100
          applyOkFix smsOkFix).1 = Option.some Status.pending_approval →
        msgStatus sentStFix = Option.some Status.pending_approval) :=
  approval_monotonic_web_guard sentStFix sentStFix sentStFix "m1" "approve"
    "approve" "m1" "approve" "m1" Option.none Option.none Option.none Option.none
    Option.none 100 100 100 42 applyOkFix applyOkFix applyOkFix smsOkFix smsOkFix
    smsOkFix sentRowFix (by decide) (by decide)

/-- On the edit path of `sendApprovedSms` no correction row is inserted (the web
route inserts it before the call) and every SMS the call sends carries exactly
the edited final body. -/
theorem sendApprovedSms_edit_effects (st : ApprovalState) (mid fb : String)
    (tg : Option Nat) (now : Nat) (ar : ApplyResult) (sr : SmsResult) :
    correctionsOf (sendApprovedSms st mid (Option.some fb) tg true now ar sr).2 = []
    ∧ ∀ t b, Effect.smsSend t b
        ∈ (sendApprovedSms st mid (Option.some fb) tg true now ar sr).2 → b = fb := by
  unfold sendApprovedSms
  rcases hm : st.message with _ | m
  · exact ⟨rfl, by intro t b hb; simp at hb⟩
  · dsimp only
    rcases hc : m.sms_conversations with _ | conv
    · exact ⟨rfl, by intro t b hb; simp at hb⟩
    · dsimp only
      split


      · constructor
        · rfl
        · intro t b hb
          simp [correctionsOf] at hb
      · split
        · constructor
          · rfl
          · intro t b hb
            simp only [List.mem_cons, List.mem_singleton] at hb
            rcases hb with hb | hb | hb | hb
            · exact (Effect.smsSend.injEq _ _ _ _).mp hb |>.2
            · cases hb
            · cases hb
            · cases hb
        · constructor
          · rfl
          · intro t b hb
            simp only [List.mem_cons, List.mem_singleton] at hb
            rcases hb with hb | hb | hb | hb
            · exact (Effect.smsSend.injEq _ _ _ _).mp hb |>.2
            · cases hb
            · cases hb
            · cases hb

/-- C6: a web edit decision inserts a CorrectionRecord with action `edit` whose
non-null corrected text is exactly the final body that any send of this event
carries; a reject decision — web form or Telegram — inserts a CorrectionRecord
with action `reject`, null corrected text, and performs no send. -/
theorem correction_edit_reject (st st2 st3 : ApprovalState) (mid mid2 mid3 : String)
    (editedBody ic ic2 ic3 : Option String) (now n2 : Nat)
    (ar ar2 : ApplyResult) (sr sr2 : SmsResult) (m m2 m3 : MsgRow)
    (hm : st.message = Option.some m)
    (hg : ¬(m.status = Status.sent ∨ m.status = Status.rejected ∨
      m.status = Status.approved))
    (hfb : jsTrim (editedBody.getD "") ≠ "")
    (hm2 : st2.message = Option.some m2)
    (hg2 : ¬(m2.status = Status.sent ∨ m2.status = Status.rejected ∨
      m2.status = Status.approved))
    (hm3 : st3.message = Option.some m3) :
    (correctionsOf (webApprovalPost st mid "edit" editedBody ic now ar sr).2.1
        = [storeCorrection "sms" "edit" ic
            (m.sms_conversations.map (fun c => c.phone_number)) m.draft_body
            (Option.some (jsTrim (editedBody.getD "")))]
      ∧ (storeCorrection "sms" "edit" ic
            (m.sms_conversations.map (fun c => c.phone_number)) m.draft_body
            (Option.some (jsTrim (editedBody.getD "")))).correctedText
          = Option.some (jsTrim (editedBody.getD ""))
      ∧ ∀ t b, Effect.smsSend t b
          ∈ (webApprovalPost st mid "edit" editedBody ic now ar sr).2.1 →
          b = jsTrim (editedBody.getD ""))
    ∧ (correctionsOf (webApprovalPost st2 mid2 "reject" Option.none ic2 n2 ar2
            sr2).2.1
        = [storeCorrection "sms" "reject" ic2
            (m2.sms_conversations.map (fun c => c.phone_number)) m2.draft_body
            Option.none]
      ∧ (storeCorrection "sms" "reject" ic2
            (m2.sms_conversations.map (fun c => c.phone_number)) m2.draft_body
            Option.none).correctedText = Option.none
      ∧ sendsOf (webApprovalPost st2 mid2 "reject" Option.none ic2 n2 ar2 sr2).2.1
          = [])
    ∧ (correctionsOf (handleReject st3 mid3 ic3).2
        = [storeCorrection "sms" "reject" ic3
            (m3.sms_conversations.map (fun c => c.phone_number)) m3.draft_body
            Option.none]
      ∧ sendsOf (handleReject st3 mid3 ic3).2 = []) := by
  refine ⟨?_, ?_, ?_⟩
  · have hweb : (webApprovalPost st mid "edit" editedBody ic now ar sr).2.1
        = Effect.correction (storeCorrection "sms" "edit" ic
            (m.sms_conversations.map (fun c => c.phone_number)) m.draft_body
            (Option.some (jsTrim (editedBody.getD ""))))
          :: (sendApprovedSms st mid (Option.some (jsTrim (editedBody.getD "")))
              Option.none true now ar sr).2 := by
      unfold webApprovalPost
      rw [hm]
      dsimp only
      rw [if_neg hg, if_neg (by decide : ¬("edit" : String) = "approve"),
        if_pos rfl, if_neg hfb]
    refine ⟨?_, ?_, ?_⟩
    · rw [hweb]
      have h1 := (sendApprovedSms_edit_effects st mid (jsTrim (editedBody.getD ""))
        Option.none now ar sr).1
      simp only [correctionsOf, List.filterMap_cons] at h1 ⊢
      rw [h1]
    · simp [storeCorrection, truthy, hfb]
    · intro t b hb
      rw [hweb] at hb
      rcases List.mem_cons.mp hb with hb | hb
      · cases hb
      · exact (sendApprovedSms_edit_effects st mid (jsTrim (editedBody.getD ""))
          Option.none now ar sr).2 t b hb
  · have hweb : (webApprovalPost st2 mid2 "reject" Option.none ic2 n2 ar2 sr2).2.1
        = [Effect.correction (storeCorrection "sms" "reject" ic2
            (m2.sms_conversations.map (fun c => c.phone_number)) m2.draft_body
            Option.none)] := by
      unfold webApprovalPost
      rw [hm2]
      dsimp only
      rw [if_neg hg2, if_neg (by decide : ¬("reject" : String) = "approve"),
        if_neg (by decide : ¬("reject" : String) = "edit"), if_pos rfl]
    rw [hweb]
    exact ⟨rfl, by simp [storeCorrection, truthy], rfl⟩
  · have hrej : (handleReject st3 mid3 ic3).2
        = [Effect.correction (storeCorrection "sms" "reject" ic3
            (m3.sms_conversations.map (fun c => c.phone_number)) m3.draft_body
            Option.none),
           Effect.telegramNotify "Message rejected (not sent)"] := by
      unfold handleReject
      rw [hm3]
      dsimp only
      rfl
    rw [hrej]
    exact ⟨rfl, rfl⟩

theorem correction_edit_reject_witness :
    (correctionsOf (webApprovalPost approvalStFix "m1" "edit"
          (Option.some " Edited reply ") Option.none 9 applyOkFix smsOkFix).2.1
        = [storeCorrection "sms" "edit" Option.none
            (pendingRowFix.sms_conversations.map (fun c => c.phone_number))
            pendingRowFix.draft_body
            (Option.some (jsTrim ((Option.some " Edited reply ").getD "")))]
      ∧ (storeCorrection "sms" "edit" Option.none
            (pendingRowFix.sms_conversations.map (fun c => c.phone_number))
            pendingRowFix.draft_body
            (Option.some (jsTrim ((Option.some " Edited reply ").getD "")))).correctedText
          = Option.some (jsTrim ((Option.some " Edited reply ").getD ""))
      ∧ ∀ t b, Effect.smsSend t b
          ∈ (webApprovalPost approvalStFix "m1" "edit"
              (Option.some " Edited reply ") Option.none 9 applyOkFix
              smsOkFix).2.1 →
          b = jsTrim ((Option.some " Edited reply ").getD ""))
    ∧ (correctionsOf (webApprovalPost approvalStFix "m1" "reject" Option.none
            Option.none 9 applyOkFix smsOkFix).2.1
        = [storeCorrection "sms" "reject" Option.none
            (pendingRowFix.sms_conversations.map (fun c => c.phone_number))
            pendingRowFix.draft_body Option.none]
      ∧ (storeCorrection "sms" "reject" Option.none
            (pendingRowFix.sms_conversations.map (fun c => c.phone_number))
            pendingRowFix.draft_body Option.none).correctedText = Option.none
      ∧ sendsOf (webApprovalPost approvalStFix "m1" "reject" Option.none
            Option.none 9 applyOkFix smsOkFix).2.1 = [])
    ∧ (correctionsOf (handleReject approvalStFix "m1" Option.none).2
        = [storeCorrection "sms" "reject" Option.none
            (pendingRowFix.sms_conversations.map (fun c => c.phone_number))
            pendingRowFix.draft_body Option.none]
      ∧ sendsOf (handleReject approvalStFix "m1" Option.none).2 = []) :=
  correction_edit_reject approvalStFix approvalStFix approvalStFix "m1" "m1" "m1"
    (Option.some " Edited reply ") Option.none Option.none Option.none 9 9
    applyOkFix applyOkFix smsOkFix smsOkFix pendingRowFix pendingRowFix
    pendingRowFix (by decide) (by decide) (by decide) (by decide) (by decide)
    (by decide)

/-- `getOrCreateConversation` only touches the conversations table. -/
theorem getOrCreateConversation_messages (db : Db) (now : Nat) (phoneNumber : String)
    (clientName : Option String) :
    (getOrCreateConversation db now phoneNumber clientName).2.messages
      = db.messages := by
  unfold getOrCreateConversation
  rcases h : db.conversations.find? (fun c => c.phone_number = phoneNumber) with _ | e
    <;> rw [h]

/-- The stored conversation of the concrete runs. -/
def convRowFix : ConversationRow :=
  { id := "c0", phone_number := "+15145550100", client_name := Option.some "Sarah",
    message_count := 1, last_message_at := 1, status := "active" }

/-- The stored inbound message of the concrete runs. -/
def inboundRowFix : MsgRow :=
  { id := "m0", conversation_id := "c0", direction := "inbound", body := "hello",
    draft_body := Option.none, twilio_sid := Option.some "SM1",
    status := Status.received, approved_at := Option.none, sent_at := Option.none,
    sms_conversations := Option.none }

/-- A database with one conversation and one stored inbound message. -/
def dbFix : Db :=
  { conversations := [convRowFix], messages := [inboundRowFix] }

/-- A webhook delivery repeating the provider message id already stored. -/
def eventDupFix : IncomingSms :=
  { fromNumber := "+15145550100", toNumber := "+14382557557", body := "hello again",
    messageSid := Option.some "SM1" }

def oraclesFix : PipelineOracles :=
  { dedupLookup := LookupOutcome.ok,
    actionResult := { ok := true, data := Option.none },
    draftReply := "Draft reply", telegramResult := Option.some 7 }

def envFix : PipelineEnv := { telegramConfigured := true }

/-- C4 counterexample: a repeated delivery of an already-stored provider message
id is reported as a duplicate, yet the Conversation record is still mutated — the
get-or-create write happens before the dedup check. -/
theorem duplicate_mutates_conversation_counterexample :
    (processIncomingMessage dbFix [] eventDupFix true envFix oraclesFix 9).2.2.2.duplicate
        = true
    ∧ (processIncomingMessage dbFix [] eventDupFix true envFix oraclesFix
        9).1.conversations ≠ dbFix.conversations := by
  decide

/-- C4 (amended): a repeated delivery of a stored provider id returns the
duplicate indicator and causes no stored message, no draft, no pending action and
no notification — but the Conversation row has already been updated by the
get-or-create step that precedes the dedup check. -/
theorem dedup_skips_processing (db : Db) (ps : PendingStore) (msg : IncomingSms)
    (sendOpt : Bool) (env : PipelineEnv) (o : PipelineOracles) (now : Nat)
    (sid : String)
    (hsid : msg.messageSid = Option.some sid)
    (hok : o.dedupLookup = LookupOutcome.ok)
    (hdup : db.messages.any (fun m => m.twilio_sid = Option.some sid) = true) :
    processIncomingMessage db ps msg sendOpt env o now
      = ((getOrCreateConversation db now (sanitizePhoneNumber msg.fromNumber)
            (extractClientName msg.body)).2, ps, [],
         { success := true, duplicate := true, draftId := Option.none,
           approvalSent := false })
    ∧ (processIncomingMessage db ps msg sendOpt env o now).1.messages
        = db.messages := by
  have hmsgs := getOrCreateConversation_messages db now
    (sanitizePhoneNumber msg.fromNumber) (extractClientName msg.body)
  have hc : checkMessageExists
      (getOrCreateConversation db now (sanitizePhoneNumber msg.fromNumber)
        (extractClientName msg.body)).2 o.dedupLookup sid = true := by
    rw [hok]
    unfold checkMessageExists
    rw [hmsgs]
    exact hdup
  have heq : processIncomingMessage db ps msg sendOpt env o now
      = ((getOrCreateConversation db now (sanitizePhoneNumber msg.fromNumber)
            (extractClientName msg.body)).2, ps, [],
         { success := true, duplicate := true, draftId := Option.none,
           approvalSent := false }) := by
    unfold processIncomingMessage
    rw [hsid]
    dsimp only
    rw [if_pos hc]
  exact ⟨heq, by rw [heq]; exact hmsgs⟩

theorem dedup_skips_processing_witness :
    processIncomingMessage dbFix [] eventDupFix true envFix oraclesFix 9
      = ((getOrCreateConversation dbFix 9
            (sanitizePhoneNumber eventDupFix.fromNumber)
            (extractClientName eventDupFix.body)).2, [], [],
         { success := true, duplicate := true, draftId := Option.none,
           approvalSent := false })
    ∧ (processIncomingMessage dbFix [] eventDupFix true envFix oraclesFix
        9).1.messages = dbFix.messages :=
  dedup_skips_processing dbFix [] eventDupFix true envFix oraclesFix 9 "SM1"
    (by decide) (by decide) (by decide)

/-- A webhook delivery with a fresh provider message id. -/
def eventFreshFix : IncomingSms :=
  { eventDupFix with messageSid := Option.some "SM2" }

/-- Oracles for a run whose Telegram approval notification fails. -/
def oraclesNotifyFailFix : PipelineOracles :=
  { oraclesFix with telegramResult := Option.none }

/-- C5 counterexample: when the approval notification fails, the draft is indeed
auto-approved with its original text, but no send attempt is made — the pipeline
performs no provider send call, so the claim's "a send attempt is made" part is
false. -/
theorem notify_failure_no_send_counterexample :
    (∃ row ∈ (processIncomingMessage dbFix [] eventFreshFix true envFix
        oraclesNotifyFailFix 9).1.messages,
      row.status = Status.approved ∧ row.body = "Draft reply")
    ∧ pipelineSends (processIncomingMessage dbFix [] eventFreshFix true envFix
        oraclesNotifyFailFix 9).2.2.1 = [] := by
  decide

/-- `approveMessage` with the row's own draft text writes exactly that text. -/
theorem approveMessage_body_drafted (m : MsgRow) (s : String) (now : Nat)
    (hd : m.draft_body = Option.some s) :
    (approveMessage m (Option.some s) now).body = s := by
  by_cases hs : s = "" <;> simp [approveMessage, jsOr, truthy, hd, hs]

/-- C5 (amended): when the approval notification fails, the stored draft
auto-transitions to `approved` with its original draft text unmodified, the
result reports the approval as not sent, and no send attempt is made — the
message is not left in `pending_approval`, but nothing ships until a human (or
another flow) acts on the approved row. -/
theorem notify_failure_auto_approves (db1 : Db) (ps : PendingStore)
    (conversation : ConversationRow) (msg : IncomingSms) (env : PipelineEnv)
    (o : PipelineOracles) (now : Nat)
    (hcfg : env.telegramConfigured = true)
    (htg : o.telegramResult = Option.none) :
    (processFresh db1 ps conversation msg true env o now).2.2.2.success = true
    ∧ (processFresh db1 ps conversation msg true env o now).2.2.2.approvalSent
        = false
    ∧ pipelineSends (processFresh db1 ps conversation msg true env o now).2.2.1 = []
    ∧ ∃ row ∈ (processFresh db1 ps conversation msg true env o now).1.messages,
        Option.some row.id
            = (processFresh db1 ps conversation msg true env o now).2.2.2.draftId
          ∧ row.direction = "outbound"
          ∧ row.status = Status.approved
          ∧ row.draft_body = Option.some o.draftReply
          ∧ row.body = o.draftReply := by
  unfold processFresh
  rw [hcfg, htg]
  refine ⟨rfl, rfl, rfl, ?_⟩
  refine ⟨approveMessage
    (storeDraftReply (storeIncomingMessage db1 conversation.id msg.messageSid
      msg.body).2 conversation.id o.draftReply).1
    (Option.some o.draftReply) now, ?_, ?_, ?_, ?_, ?_, ?_⟩
  · unfold approveMessageDb
    dsimp only
    have hmem : (storeDraftReply (storeIncomingMessage db1 conversation.id
        msg.messageSid msg.body).2 conversation.id o.draftReply).1
        ∈ (storeDraftReply (storeIncomingMessage db1 conversation.id msg.messageSid
          msg.body).2 conversation.id o.draftReply).2.messages := by
      unfold storeDraftReply
      dsimp only
      exact List.mem_append_right _ (List.mem_singleton.mpr rfl)
    have := List.mem_map_of_mem
      (fun m => if m.id = (storeDraftReply (storeIncomingMessage db1 conversation.id
        msg.messageSid msg.body).2 conversation.id o.draftReply).1.id then
          approveMessage m (Option.some o.draftReply) now
        else m) hmem
    simpa using this
  · rfl
  · rfl
  · rfl
  · rfl
  · exact approveMessage_body_drafted _ o.draftReply now rfl

theorem notify_failure_auto_approves_witness :
    (processFresh dbFix [] convRowFix eventFreshFix true envFix oraclesNotifyFailFix
        9).2.2.2.success = true
    ∧ (processFresh dbFix [] convRowFix eventFreshFix true envFix
        oraclesNotifyFailFix 9).2.2.2.approvalSent = false
    ∧ pipelineSends (processFresh dbFix [] convRowFix eventFreshFix true envFix
        oraclesNotifyFailFix 9).2.2.1 = []
    ∧ ∃ row ∈ (processFresh dbFix [] convRowFix eventFreshFix true envFix
        oraclesNotifyFailFix 9).1.messages,
        Option.some row.id = (processFresh dbFix [] convRowFix eventFreshFix true
            envFix oraclesNotifyFailFix 9).2.2.2.draftId
          ∧ row.direction = "outbound"
          ∧ row.status = Status.approved
          ∧ row.draft_body = Option.some oraclesNotifyFailFix.draftReply
          ∧ row.body = oraclesNotifyFailFix.draftReply :=
  notify_failure_auto_approves dbFix [] convRowFix eventFreshFix envFix
    oraclesNotifyFailFix 9 (by decide) (by decide)

/-- Every fresh-path run reports a non-duplicate success and keeps the stored
inbound row (with its provider id) in the table. -/
theorem processFresh_result (db1 : Db) (ps : PendingStore)
    (conversation : ConversationRow) (msg : IncomingSms) (sendOpt : Bool)
    (env : PipelineEnv) (o : PipelineOracles) (now : Nat) :
    (processFresh db1 ps conversation msg sendOpt env o now).2.2.2.duplicate = false
    ∧ (processFresh db1 ps conversation msg sendOpt env o now).2.2.2.success = true
    ∧ ∃ row ∈ (processFresh db1 ps conversation msg sendOpt env o now).1.messages,
        row.direction = "inbound" ∧ row.twilio_sid = msg.messageSid := by
  have hmem0 : (storeIncomingMessage db1 conversation.id msg.messageSid msg.body).1
      ∈ (storeDraftReply (storeIncomingMessage db1 conversation.id msg.messageSid
        msg.body).2 conversation.id o.draftReply).2.messages := by
    unfold storeDraftReply
    dsimp only
    refine List.mem_append_left _ ?_
    unfold storeIncomingMessage
    dsimp only
    exact List.mem_append_right _ (List.mem_singleton.mpr rfl)
  have hpres : ∀ (x : String) (m : MsgRow),
      (if m.id = x then approveMessage m (Option.some o.draftReply) now
          else m).direction = m.direction
        ∧ (if m.id = x then approveMessage m (Option.some o.draftReply) now
            else m).twilio_sid = m.twilio_sid := by
    intro x m
    split <;> exact ⟨rfl, rfl⟩
  unfold processFresh
  dsimp only
  repeat' split
  all_goals first
    | exact ⟨rfl, rfl, _, hmem0, rfl, rfl⟩
    | (refine ⟨rfl, rfl, ?_⟩
       unfold approveMessageDb
       dsimp only
       exact ⟨_, List.mem_map_of_mem _ hmem0,
         ((hpres _ _).1.trans rfl), ((hpres _ _).2.trans rfl)⟩)

/-- C7: when the dedup lookup errors, the event is treated as not a duplicate:
the run is exactly the fresh-message run — the inbound row is stored and
processing continues — even if a row with the same provider id already exists. -/
theorem lookup_error_fail_open (db : Db) (ps : PendingStore) (msg : IncomingSms)
    (sendOpt : Bool) (env : PipelineEnv) (o : PipelineOracles) (now : Nat)
    (herr : o.dedupLookup = LookupOutcome.errored) :
    processIncomingMessage db ps msg sendOpt env o now
      = processFresh (getOrCreateConversation db now
            (sanitizePhoneNumber msg.fromNumber) (extractClientName msg.body)).2 ps
          (getOrCreateConversation db now (sanitizePhoneNumber msg.fromNumber)
            (extractClientName msg.body)).1 msg sendOpt env o now
    ∧ (processIncomingMessage db ps msg sendOpt env o now).2.2.2.duplicate = false
    ∧ (processIncomingMessage db ps msg sendOpt env o now).2.2.2.success = true
    ∧ ∃ row ∈ (processIncomingMessage db ps msg sendOpt env o now).1.messages,
        row.direction = "inbound" ∧ row.twilio_sid = msg.messageSid := by
  have heq : processIncomingMessage db ps msg sendOpt env o now
      = processFresh (getOrCreateConversation db now
            (sanitizePhoneNumber msg.fromNumber) (extractClientName msg.body)).2 ps
          (getOrCreateConversation db now (sanitizePhoneNumber msg.fromNumber)
            (extractClientName msg.body)).1 msg sendOpt env o now := by
    unfold processIncomingMessage
    rcases hsid : msg.messageSid with _ | sid
    · rfl
    · dsimp only
      rw [herr]
      rfl
  have hres := processFresh_result (getOrCreateConversation db now
      (sanitizePhoneNumber msg.fromNumber) (extractClientName msg.body)).2 ps
    (getOrCreateConversation db now (sanitizePhoneNumber msg.fromNumber)
      (extractClientName msg.body)).1 msg sendOpt env o now
  rw [heq]
  exact ⟨rfl, hres.1, hres.2.1, hres.2.2⟩

/-- Oracles for a run whose dedup lookup errors. -/
def oraclesLookupErrFix : PipelineOracles :=
  { oraclesFix with dedupLookup := LookupOutcome.errored }

theorem lookup_error_fail_open_witness :
    processIncomingMessage dbFix [] eventDupFix true envFix oraclesLookupErrFix 9
      = processFresh (getOrCreateConversation dbFix 9
            (sanitizePhoneNumber eventDupFix.fromNumber)
            (extractClientName eventDupFix.body)).2 []
          (getOrCreateConversation dbFix 9
            (sanitizePhoneNumber eventDupFix.fromNumber)
            (extractClientName eventDupFix.body)).1 eventDupFix true envFix
          oraclesLookupErrFix 9
    ∧ (processIncomingMessage dbFix [] eventDupFix true envFix oraclesLookupErrFix
        9).2.2.2.duplicate = false
    ∧ (processIncomingMessage dbFix [] eventDupFix true envFix oraclesLookupErrFix
        9).2.2.2.success = true
    ∧ ∃ row ∈ (processIncomingMessage dbFix [] eventDupFix true envFix
        oraclesLookupErrFix 9).1.messages,
        row.direction = "inbound" ∧ row.twilio_sid = eventDupFix.messageSid :=
  lookup_error_fail_open dbFix [] eventDupFix true envFix oraclesLookupErrFix 9
    (by decide)

/-- The first-contact scenario message of the spec. -/
def sarahMsg : String := "Hi, this is Sarah, need a quote for June 15 for 80 people"

set_option maxRecDepth 10000

/-- C9 counterexample: on "Hi, this is Sarah, need a quote for June 15 for 80
people" the inquiry detector returns "unknown", not "bar_service" — no word of the
bar-service alternation (event, wedding, party, bartend, bar, cocktail, hire,
gala, reception, …) occurs in the message — so the bar-service template with its
pruned questions is not the reply. -/
theorem sarah_inquiry_type_counterexample :
    detectInquiryType sarahMsg ≠ "bar_service"
    ∧ detectInquiryType sarahMsg = "unknown" := by
  decide

/-- C9 (amended): for the Sarah message with no prior conversation, the extracted
client name is "Sarah" and the detected language is English, but the detected
inquiry type is "unknown", so the reply is the generic unknown-type template —
which asks for the date and group size and for the location (nothing is omitted;
the date/guest-count pruning only applies inside the workshop and bar-service
templates). -/
theorem sarah_first_contact_scenario :
    extractClientName sarahMsg = Option.some "Sarah"
    ∧ detectLanguage sarahMsg = "en"
    ∧ detectInquiryType sarahMsg = "unknown"
    ∧ generateFirstMessageReply sarahMsg (Option.some "Sarah")
        = "Hey Sarah,\n\nThanks for reaching out! We offer bar service for events and cocktail workshops.\n\nWhat type of service are you looking for? A few basics to get started:\n- The date and group size?\n- The location?\n\nWhat's your email? I'll send you the details." := by
  refine ⟨by decide, by decide, by decide, by decide⟩

end SmsSkill
